import Mathlib

/-!
Shallow embedding of the TeslaNav route resolution & optimization core
(`backend/main.py`): the `/route` endpoint (`resolve_and_optimize`), its
geocoding / place-search / directions helpers, and the
`/route/optimize-order` nearest-neighbor reorder endpoint
(`optimize_stop_order`).

Modelling conventions:
* Python floats are modelled as `ℚ` (the claims under study depend only on
  exact arithmetic; the two genuinely transcendental float computations —
  `math.sqrt` in the search-radius formula and the `haversine` distance —
  are abstracted as parameters of the provider environment `Env`, because
  no claim depends on their values).
* Outbound HTTP collaborators (Google geocoding, Nominatim, Places text
  search, the Routes API) are modelled as pure oracles in `Env`; a `none`
  result stands for "non-OK status / empty result / exception".
* Python truthiness on optional strings (`None` and `""` falsy) and on
  optional numbers (`None` and `0.0` falsy) is modelled explicitly by
  `pyTruthyStr` / `pyTruthyNum`.
* `asyncio.gather` preserves argument order, so concurrent fan-out phases
  are modelled as `List.map`.
-/

/-- Mirror of the pydantic `RouteStop` model (only the fields the route
core reads or writes). -/
structure RouteStop where
  id : String
  address : String
  label : Option String := none
  notes : Option String := none
  stopType : Option String := some "specific"
  searchQuery : Option String := none
  openTime : Option String := none
  closeTime : Option String := none
  dwellMinutes : Int := 20
  estimatedArrival : Option String := none
  driveMinutesFromPrev : Option Int := none
  hasConflict : Bool := false
  latitude : Option ℚ := none
  longitude : Option ℚ := none
  distanceMeters : Option Int := none
deriving Repr, DecidableEq, Inhabited

/-- Mirror of the pydantic `RoutePreferences` model. -/
structure RoutePreferences where
  scenic : Bool := false
  avoidHighways : Bool := false
  avoidTolls : Bool := false
  avoidFerries : Bool := false
  preferenceNotes : Option String := none
deriving Repr, DecidableEq, Inhabited

/-- Mirror of the pydantic `RouteRequest` model (body of POST /route). -/
structure RouteRequest where
  origin : Option String := none
  stops : List RouteStop
  preferences : Option RoutePreferences := none
deriving Repr, DecidableEq, Inhabited

/-- Mirror of the pydantic `OptimizeRequest` model (body of POST
/route/optimize-order). -/
structure OptimizeRequest where
  origin : Option String := none
  stops : List RouteStop
deriving Repr, DecidableEq, Inhabited

/-- A geocoding result `{lat, lng}`. -/
structure Geo where
  lat : ℚ
  lng : ℚ
deriving Repr, DecidableEq, Inhabited

/-- A raw Places text-search result before normalization: the source reads
`formatted_address` and `name` with defaults (`place.get(...)`) and the
geometry coordinates. -/
structure PlaceRaw where
  formatted_address : Option String := none
  name : Option String := none
  lat : ℚ
  lng : ℚ
deriving Repr, DecidableEq, Inhabited

/-- A normalized place `{address, name, lat, lng}` as returned by
`search_places_along_route` / `text_search_place`. -/
structure Place where
  address : String
  name : String
  lat : ℚ
  lng : ℚ
deriving Repr, DecidableEq, Inhabited

/-- The `routeModifiers` object sent to the Routes API. The source omits a
key entirely when the flag is false (and omits the whole object when all
are false); an absent key and an explicit `false` are equivalent to the
provider, so both are modelled as `false`. -/
structure RouteModifiers where
  avoidHighways : Bool := false
  avoidTolls : Bool := false
  avoidFerries : Bool := false
deriving Repr, DecidableEq, Inhabited

/-- The outbound `computeRoutes` request body built by `get_directions`
(the fixed `travelMode`/`routingPreference` fields carry no information). -/
structure RoutesBody where
  origin : String
  destination : String
  intermediates : List String
  routeModifiers : RouteModifiers
deriving Repr, DecidableEq, Inhabited

/-- One raw leg of a Routes API response, after the source's parsing of
`duration` (`"123s"` → integer seconds, default `"0s"`) and
`distanceMeters` (default 0). -/
structure LegRaw where
  durationSec : Int
  distanceMeters : Int
deriving Repr, DecidableEq, Inhabited

/-- One processed leg `{duration_min, distance_km}`. -/
structure Leg where
  duration_min : Int
  distance_km : ℚ
deriving Repr, DecidableEq, Inhabited

/-- The directions dict returned by `get_directions`. -/
structure DirectionsResult where
  legs : List Leg
  total_duration_min : Int
  total_distance_km : ℚ
deriving Repr, DecidableEq, Inhabited

/-- The JSON body returned by the /route endpoint. -/
structure RouteResponse where
  stops : List RouteStop
  directions : Option DirectionsResult
deriving Repr, DecidableEq, Inhabited

/-- Provider environment: the outbound collaborators of the core, plus the
two abstracted float computations. `gkey` is the resolved Google key
(header value or env var); the empty string means "no key configured". -/
structure Env where
  gkey : String
  /-- Google geocoding: `some` iff status OK with nonempty results. -/
  googleGeocode : String → Option Geo
  /-- Nominatim keyless fallback: `some` iff the request succeeded with
  nonempty results. -/
  nominatim : String → Option Geo
  /-- Places text search with location bias (query, midpoint, radius m). -/
  placesBiased : String → Geo → Int → Option PlaceRaw
  /-- Places text search without location bias. -/
  placesUnbiased : String → Option PlaceRaw
  /-- Routes API `computeRoutes`: `some legs` iff a route was returned. -/
  routes : RoutesBody → Option (List LegRaw)
  /-- Abstraction of float `math.sqrt` in the corridor-radius formula. -/
  sqrtQ : ℚ → ℚ
  /-- Abstraction of the float `haversine` great-circle distance. -/
  dist : Geo → Geo → ℚ

/-- Python truthiness of an optional string: `None` and `""` are falsy. -/
def pyTruthyStr (o : Option String) : Bool :=
  match o with
  | some t => decide (t ≠ "")
  | none => false

/-- Python truthiness of an optional number: `None` and `0.0` are falsy. -/
def pyTruthyNum (o : Option ℚ) : Bool :=
  match o with
  | some x => decide (x ≠ 0)
  | none => false

/-- Python `a or b` on an optional string vs. a string default. -/
def pyOrS (o : Option String) (b : String) : String :=
  match o with
  | some t => if t = "" then b else t
  | none => b

/-- Python `a or b` on an optional int vs. an int default (as in
`stop.driveMinutesFromPrev or 0`). -/
def pyOrInt (o : Option Int) (b : Int) : Int :=
  match o with
  | some d => if d = 0 then b else d
  | none => b

/-- Truthiness of `stop.latitude and stop.longitude`. -/
def pyCoordTruthy (s : RouteStop) : Bool :=
  pyTruthyNum s.latitude && pyTruthyNum s.longitude

/-- Python `int()` truncation toward zero on an exact rational. -/
def pytrunc (x : ℚ) : Int :=
  if x < 0 then -⌊-x⌋ else ⌊x⌋

/-- Round-half-to-even to the nearest integer (Python `round` semantics on
exactly representable values). -/
def round_half_even (x : ℚ) : Int :=
  let f := ⌊x⌋
  let r := x - f
  if r < 1/2 then f
  else if 1/2 < r then f + 1
  else if f % 2 = 0 then f else f + 1

/-- Python `round(x, 1)` on an exact rational. -/
def round1 (x : ℚ) : ℚ :=
  ((round_half_even (x * 10) : ℚ)) / 10

/-- Splitting a character list at `':'` (mirror of `t.split(":")`). -/
def split_colon : List Char → List (List Char)
  | [] => [[]]
  | c :: rest =>
      let r := split_colon rest
      if c = ':' then [] :: r
      else
        match r with
        | [] => [[c]]
        | g :: gs => (c :: g) :: gs

/-- Accumulator loop of `parse_digits`. -/
def parse_digits_go : List Char → Nat → Option Nat
  | [], acc => some acc
  | c :: rest, acc =>
      if c.isDigit then parse_digits_go rest (acc * 10 + (c.toNat - 48)) else none

/-- Python `int(...)` on the digit-only components of an `"HH:MM"` time
(the only shape the route core feeds it; other inputs raise there). -/
def parse_digits (cs : List Char) : Option Nat :=
  if cs = [] then none else parse_digits_go cs 0

/-- `time_to_minutes` (`"HH:MM"` → minutes since midnight). The source
unpacks exactly two `int(...)` components; malformed inputs raise there
and are outside the modelled state space. -/
def time_to_minutes (t : String) : Int :=
  match (split_colon t.toList).map parse_digits with
  | [some h, some m] => (h : Int) * 60 + (m : Int)
  | _ => 0

/-- Zero-padded two-digit rendering of the minute field (`f"{mn:02d}"`,
with `0 ≤ mn ≤ 59` at every call site). -/
def pad2 (mn : Int) : String :=
  if mn < 10 then "0" ++ toString mn else toString mn

/-- `minutes_to_time`: 12-hour clock rendering of minutes since midnight. -/
def minutes_to_time (m : Int) : String :=
  let h := (Int.ediv m 60) % 24
  let mn := m % 60
  let ampm := if h ≥ 12 then "PM" else "AM"
  let h12 := if h % 12 = 0 then 12 else h % 12
  toString h12 ++ ":" ++ pad2 mn ++ " " ++ ampm

/-- `geocode`: Google first when a key is configured and it returns OK
with results, else the Nominatim keyless fallback. -/
def geocode (env : Env) (address : String) : Option Geo :=
  match (if env.gkey = "" then none else env.googleGeocode address) with
  | some g => some g
  | none => env.nominatim address

/-- Normalization applied to the first Places result: address defaults to
`""`, name defaults to the query. -/
def normalize_place (query : String) (p : PlaceRaw) : Place :=
  { address := p.formatted_address.getD ""
    name := p.name.getD query
    lat := p.lat
    lng := p.lng }

/-- `text_search_place`: unbiased text search fallback. -/
def text_search_place (env : Env) (query : String) : Option Place :=
  if env.gkey = "" then none
  else (env.placesUnbiased query).map (normalize_place query)

/-- The biased-search radius (line `radius_m = int(max(5000, min(50000,
dist_deg * 111_000 / 2)))`), as a function of the angular distance
`dist_deg` between the two geocoded corridor endpoints. -/
def search_radius_m (dist_deg : ℚ) : Int :=
  pytrunc (max 5000 (min 50000 (dist_deg * 111000 / 2)))

/-- `search_places_along_route`: corridor-midpoint-biased place search. -/
def search_places_along_route (env : Env) (query origin_addr destination_addr : String)
    (prev_stop_addr next_stop_addr : Option String) : Option Place :=
  if env.gkey = "" then none
  else
    let point_a := pyOrS prev_stop_addr origin_addr
    let point_b := pyOrS next_stop_addr destination_addr
    match geocode env point_a, geocode env point_b with
    | some geo_a, some geo_b =>
        let mid : Geo := ⟨(geo_a.lat + geo_b.lat) / 2, (geo_a.lng + geo_b.lng) / 2⟩
        let dlat := geo_a.lat - geo_b.lat
        let dlng := geo_a.lng - geo_b.lng
        let dist_deg := env.sqrtQ (dlat ^ 2 + dlng ^ 2)
        (env.placesBiased query mid (search_radius_m dist_deg)).map (normalize_place query)
    | _, _ => text_search_place env query

/-- The `route_modifiers` dict built by `get_directions`. -/
def build_route_modifiers (prefs : Option RoutePreferences) : RouteModifiers :=
  match prefs with
  | none => {}
  | some p =>
      { avoidHighways := p.avoidHighways || p.scenic
        avoidTolls := p.avoidTolls
        avoidFerries := p.avoidFerries }

/-- The outbound `computeRoutes` request body built by `get_directions`. -/
def directions_request_body (origin destination : String) (waypoints : List String)
    (prefs : Option RoutePreferences) : RoutesBody :=
  { origin := origin
    destination := destination
    intermediates := waypoints
    routeModifiers := build_route_modifiers prefs }

/-- The leg-processing loop of `get_directions`: returns the processed
legs together with the accumulated total minutes and total raw meters. -/
def process_legs : List LegRaw → List Leg × Int × Int
  | [] => ([], 0, 0)
  | l :: rest =>
      let dur_min := Int.ediv l.durationSec 60
      let leg : Leg := ⟨dur_min, round1 ((l.distanceMeters : ℚ) / 1000)⟩
      let acc := process_legs rest
      (leg :: acc.1, dur_min + acc.2.1, l.distanceMeters + acc.2.2)

/-- Assembly of the directions dict from the raw legs of the first route. -/
def mk_directions_result (raw : List LegRaw) : DirectionsResult :=
  let acc := process_legs raw
  { legs := acc.1
    total_duration_min := acc.2.1
    total_distance_km := round1 ((acc.2.2 : ℚ) / 1000) }

/-- `get_directions`: Routes API call with preference mapping. -/
def get_directions (env : Env) (origin destination : String) (waypoints : List String)
    (prefs : Option RoutePreferences) : Option DirectionsResult :=
  if env.gkey = "" then none
  else
    match env.routes (directions_request_body origin destination waypoints prefs) with
    | none => none
    | some raw => some (mk_directions_result raw)

/-- The diagnostic note attached to a search stop whose Places resolution
failed. -/
def search_fail_note (stop : RouteStop) : String :=
  "Could not find \x27" ++ stop.searchQuery.getD "" ++ "\x27 along route — using as-is"

/-- The phase-1 guard `stop.stopType == "search" and stop.searchQuery`. -/
def search_active (s : RouteStop) : Bool :=
  decide (s.stopType = some "search") && pyTruthyStr s.searchQuery

/-- One iteration of phase 1 of `resolve_and_optimize`: resolve a
search-type stop against the corridor between its original neighbors. -/
def resolve_stop (env : Env) (origin final_dest : String) (all : List RouteStop)
    (i : Nat) (stop : RouteStop) : RouteStop :=
  if search_active stop then
    let prev_addr := if 0 < i then (all.getD (i - 1) default).address else origin
    let next_addr := if i < all.length - 1 then (all.getD (i + 1) default).address else final_dest
    match search_places_along_route env (stop.searchQuery.getD "") origin final_dest
        (some prev_addr) (some next_addr) with
    | some place =>
        { stop with
          address := place.address
          label := some (pyOrS stop.label place.name)
          stopType := some "resolved" }
    | none => { stop with notes := some (search_fail_note stop) }
  else stop

/-- Phase 1 loop (`for i, stop in enumerate(body.stops)`), carrying the
running index. -/
def phase1_go (env : Env) (origin final_dest : String) (all : List RouteStop) :
    Nat → List RouteStop → List RouteStop
  | _, [] => []
  | i, s :: rest =>
      resolve_stop env origin final_dest all i s ::
        phase1_go env origin final_dest all (i + 1) rest

/-- Phase 1 of `resolve_and_optimize`. -/
def phase1 (env : Env) (origin final_dest : String) (stops : List RouteStop) :
    List RouteStop :=
  phase1_go env origin final_dest stops 0 stops

/-- Phase 1b helper `geocode_stop`: backfill coordinates for stops whose
`latitude and longitude` is falsy. -/
def geocode_stop (env : Env) (stop : RouteStop) : RouteStop :=
  if pyCoordTruthy stop then stop
  else
    match geocode env stop.address with
    | some g => { stop with latitude := some g.lat, longitude := some g.lng }
    | none => stop

/-- Phase 3 loop: attach each leg's duration and distance to the stop at
the same index (stops beyond the leg list are left unchanged). -/
def attach_drive : List Leg → List RouteStop → List RouteStop
  | _, [] => []
  | [], s :: rest => s :: attach_drive [] rest
  | leg :: legs, s :: rest =>
      { s with
        driveMinutesFromPrev := some leg.duration_min
        distanceMeters := some (pytrunc (leg.distance_km * 1000)) } :: attach_drive legs rest

/-- Phase 3 of `resolve_and_optimize` (`if directions and
directions["legs"]`). -/
def phase3 (directions : Option DirectionsResult) (stops : List RouteStop) :
    List RouteStop :=
  match directions with
  | some d => if d.legs = [] then stops else attach_drive d.legs stops
  | none => stops

/-- Phase 4 of `resolve_and_optimize`: the sequential conflict-scheduling
simulation over the running clock. -/
def schedule : Int → List RouteStop → List RouteStop
  | _, [] => []
  | clock, s :: rest =>
      let drive := pyOrInt s.driveMinutesFromPrev 0
      let arrival := clock + drive
      let open_min : Int := if pyTruthyStr s.openTime then time_to_minutes (s.openTime.getD "") else 0
      let close_min : Int :=
        if pyTruthyStr s.closeTime then time_to_minutes (s.closeTime.getD "") else 23 * 60 + 59
      let visit_start := max arrival open_min
      let conflict := decide (visit_start + s.dwellMinutes > close_min)
      { s with
        estimatedArrival := some (minutes_to_time visit_start)
        hasConflict := conflict } :: schedule (visit_start + s.dwellMinutes) rest

/-- The POST /route endpoint `resolve_and_optimize`; `none` models the
HTTP 400 raised on an empty stop list. -/
def resolve_and_optimize (env : Env) (body : RouteRequest) : Option RouteResponse :=
  if body.stops = [] then none
  else
    let origin := pyOrS body.origin body.stops.headI.address
    let final_dest := ((body.stops.getLast?).getD default).address
    let rs1 := phase1 env origin final_dest body.stops
    let rs2 := rs1.map (geocode_stop env)
    let waypoint_addrs :=
      if 1 < rs2.length then (rs2.dropLast).map (fun s => s.address) else []
    let dest_addr := ((rs2.getLast?).getD default).address
    let directions := get_directions env origin dest_addr waypoint_addrs body.preferences
    let rs3 := phase3 directions rs2
    let has_windows := rs3.any (fun s => pyTruthyStr s.openTime || pyTruthyStr s.closeTime)
    let rs4 := if has_windows && directions.isSome then schedule (8 * 60) rs3 else rs3
    some { stops := rs4, directions := directions }

/-- `ensure_coords` of `optimize_stop_order` (textually identical to
`geocode_stop`; the source defines it separately). -/
def ensure_coords (env : Env) (stop : RouteStop) : RouteStop :=
  if pyCoordTruthy stop then stop
  else
    match geocode env stop.address with
    | some g => { stop with latitude := some g.lat, longitude := some g.lng }
    | none => stop

/-- The inner `for idx in remaining` scan of the nearest-neighbor loop:
track the best (index, distance) among coordinate-bearing stops, strictly
improving on the running best. -/
def select_go (env : Env) (stops : List RouteStop) (cur : Geo) :
    List Nat → Option (Nat × ℚ) → Option (Nat × ℚ)
  | [], acc => acc
  | idx :: rest, acc =>
      let s := stops.getD idx default
      if pyCoordTruthy s then
        let d := env.dist cur ⟨s.latitude.getD 0, s.longitude.getD 0⟩
        match acc with
        | none => select_go env stops cur rest (some (idx, d))
        | some (bi, bd) =>
            select_go env stops cur rest (if d < bd then some (idx, d) else some (bi, bd))
      else select_go env stops cur rest acc

/-- `best_idx` after one pass over `remaining` (`None` iff no remaining
stop has truthy coordinates). -/
def select_best (env : Env) (stops : List RouteStop) (cur : Geo)
    (remaining : List Nat) : Option Nat :=
  (select_go env stops cur remaining none).map (fun p => p.1)

/-- The `while remaining` nearest-neighbor loop, with fuel bounding the
number of selections (each iteration removes the selected index, so
`remaining.length` fuel suffices). On `best_idx is None` the remaining
indices are appended in their current (original) order. -/
def greedy (env : Env) (stops : List RouteStop) : Nat → Geo → List Nat → List Nat
  | 0, _, remaining => remaining
  | Nat.succ fuel, cur, remaining =>
      if remaining = [] then []
      else
        match select_best env stops cur remaining with
        | none => remaining
        | some bi =>
            let s := stops.getD bi default
            bi :: greedy env stops fuel ⟨s.latitude.getD 0, s.longitude.getD 0⟩
              (remaining.erase bi)

/-- The POST /route/optimize-order endpoint `optimize_stop_order`. -/
def optimize_stop_order (env : Env) (body : OptimizeRequest) : List RouteStop :=
  let stops := body.stops
  if stops.length ≤ 2 then stops
  else
    let stops2 := stops.map (ensure_coords env)
    let origin_coords :=
      if pyTruthyStr body.origin then geocode env (body.origin.getD "") else none
    match origin_coords with
    | some oc =>
        let ordered := greedy env stops2 stops2.length oc (List.range stops2.length)
        ordered.map (fun i => stops2.getD i default)
    | none =>
        let first := stops2.headI
        if pyCoordTruthy first then
          let ordered :=
            0 :: greedy env stops2 (stops2.length - 1)
              ⟨first.latitude.getD 0, first.longitude.getD 0⟩
              ((List.range stops2.length).drop 1)
          ordered.map (fun i => stops2.getD i default)
        else stops2

/-- Environment with no providers at all: no Google key and a keyless
fallback that yields nothing. -/
def noProviderEnv : Env :=
  { gkey := ""
    googleGeocode := fun _ => none
    nominatim := fun _ => none
    placesBiased := fun _ _ _ => none
    placesUnbiased := fun _ => none
    routes := fun _ => none
    sqrtQ := fun _ => 0
    dist := fun _ _ => 0 }

/-- A single search-type stop with no `searchQuery`. -/
def searchStopNoQuery : RouteStop :=
  { id := "s1", address := "X", stopType := some "search" }

/-- Request consisting of the single query-less search stop. -/
def bodyNoQuery : RouteRequest :=
  { stops := [searchStopNoQuery] }

/-- Environment whose keyless geocoder answers the scenario of the spec's
reorder-correctness test: A(0,0), B(1,0), C(2,0), origin O(0,0). -/
def lineEnv : Env :=
  { gkey := ""
    googleGeocode := fun _ => none
    nominatim := fun a =>
      if a = "A" then some ⟨0, 0⟩
      else if a = "B" then some ⟨1, 0⟩
      else if a = "C" then some ⟨2, 0⟩
      else if a = "O" then some ⟨0, 0⟩
      else none
    placesBiased := fun _ _ _ => none
    placesUnbiased := fun _ => none
    routes := fun _ => none
    sqrtQ := fun _ => 0
    dist := fun _ _ => 0 }

/-- The 3-stop reorder request of the spec's reorder-correctness test. -/
def lineBody : OptimizeRequest :=
  { origin := some "O"
    stops :=
      [ { id := "A", address := "A" }
      , { id := "B", address := "B" }
      , { id := "C", address := "C" } ] }

/-- Environment whose Routes API returns a single 1800-second, 1000-meter
leg (30 minutes of driving), with geocoding unavailable. -/
def thirtyMinLegEnv : Env :=
  { gkey := "k"
    googleGeocode := fun _ => none
    nominatim := fun _ => none
    placesBiased := fun _ _ _ => none
    placesUnbiased := fun _ => none
    routes := fun _ => some [⟨1800, 1000⟩]
    sqrtQ := fun _ => 0
    dist := fun _ _ => 0 }

/-- Single stop with a 09:00–09:15 window and the default 20-minute dwell. -/
def windowBody : RouteRequest :=
  { stops :=
      [ { id := "s1", address := "Addr1", openTime := some "09:00"
          closeTime := some "09:15", dwellMinutes := 20 } ] }

/-- Environment whose Routes API returns two 1250-meter legs. -/
def twoLegEnv : Env :=
  { gkey := "k"
    googleGeocode := fun _ => none
    nominatim := fun _ => none
    placesBiased := fun _ _ _ => none
    placesUnbiased := fun _ => none
    routes := fun _ => some [⟨60, 1250⟩, ⟨60, 1250⟩]
    sqrtQ := fun _ => 0
    dist := fun _ _ => 0 }

/-- Environment whose keyless geocoder sends address "Y" to (5, 6). -/
def yEnv : Env :=
  { gkey := ""
    googleGeocode := fun _ => none
    nominatim := fun a => if a = "Y" then some ⟨5, 6⟩ else none
    placesBiased := fun _ _ _ => none
    placesUnbiased := fun _ => none
    routes := fun _ => none
    sqrtQ := fun _ => 0
    dist := fun _ _ => 0 }

/-- A stop that already carries coordinates, one of which is exactly 0. -/
def zeroLatStop : RouteStop :=
  { id := "z", address := "Y", latitude := some 0, longitude := some 1 }

/-! ## Shared helper lemmas -/

lemma pyOrInt_zero (o : Option Int) : pyOrInt o 0 = o.getD 0 := by
  cases o with
  | none => rfl
  | some d =>
      simp only [pyOrInt, Option.getD]
      split <;> simp_all

lemma map_eq_self_of_eq {α : Type} (f : α → α) (l : List α)
    (h : ∀ s ∈ l, f s = s) : l.map f = l := by
  induction l with
  | nil => rfl
  | cons a t ih =>
      simp only [List.map_cons, h a (List.mem_cons_self a t)]
      rw [ih fun s hs => h s (List.mem_cons_of_mem a hs)]

lemma map_proj_map {α β : Type} (f : α → α) (p : α → β) (l : List α)
    (h : ∀ s, p (f s) = p s) : (l.map f).map p = l.map p := by
  induction l with
  | nil => rfl
  | cons a t ih => simp only [List.map_cons, h a, ih]

lemma resolve_stop_id (env : Env) (o d : String) (all : List RouteStop) (i : Nat)
    (s : RouteStop) : (resolve_stop env o d all i s).id = s.id := by
  unfold resolve_stop
  split
  · dsimp only
    split <;> rfl
  · rfl

lemma resolve_stop_stopType_of_fail (env : Env) (o d : String) (all : List RouteStop)
    (i : Nat) (s : RouteStop)
    (h : ∀ q pa pb, search_places_along_route env q o d pa pb = none) :
    resolve_stop env o d all i s =
      if search_active s then { s with notes := some (search_fail_note s) } else s := by
  unfold resolve_stop
  split
  · dsimp only
    rw [h]
  · rfl

lemma geocode_stop_id (env : Env) (s : RouteStop) : (geocode_stop env s).id = s.id := by
  unfold geocode_stop
  split
  · rfl
  · split <;> rfl

lemma geocode_stop_of_geocode_none (env : Env) (s : RouteStop)
    (h : geocode env s.address = none) : geocode_stop env s = s := by
  unfold geocode_stop
  split
  · rfl
  · rw [h]

lemma phase1_go_id (env : Env) (o d : String) (all : List RouteStop) :
    ∀ (l : List RouteStop) (i : Nat),
      (phase1_go env o d all i l).map (fun s => s.id) = l.map (fun s => s.id) := by
  intro l
  induction l with
  | nil => intro i; rfl
  | cons a t ih =>
      intro i
      simp only [phase1_go, List.map_cons, resolve_stop_id, ih]

lemma attach_drive_id :
    ∀ (legs : List Leg) (l : List RouteStop),
      (attach_drive legs l).map (fun s => s.id) = l.map (fun s => s.id) := by
  intro legs l
  induction l generalizing legs with
  | nil => cases legs <;> rfl
  | cons a t ih =>
      cases legs with
      | nil => simp only [attach_drive, List.map_cons, ih]
      | cons lg lgs => simp only [attach_drive, List.map_cons, ih]

lemma phase3_id (d : Option DirectionsResult) (l : List RouteStop) :
    (phase3 d l).map (fun s => s.id) = l.map (fun s => s.id) := by
  unfold phase3
  cases d with
  | none => rfl
  | some dr =>
      dsimp only
      split
      · rfl
      · exact attach_drive_id dr.legs l

lemma schedule_id :
    ∀ (clock : Int) (l : List RouteStop),
      (schedule clock l).map (fun s => s.id) = l.map (fun s => s.id) := by
  intro clock l
  induction l generalizing clock with
  | nil => rfl
  | cons a t ih => simp only [schedule, List.map_cons, ih]

/-! ## C4: preference mapping -/

/-- C4: for every `RoutePreferences` with `scenic = true`, the outbound
directions request carries the highway-avoidance modifier (even when
`avoidHighways = false`), and `avoidTolls` / `avoidFerries` map directly
to their own avoidance modifiers. -/
theorem c4_preference_mapping (o d : String) (w : List String) (p : RoutePreferences)
    (hs : p.scenic = true) :
    (directions_request_body o d w (some p)).routeModifiers.avoidHighways = true ∧
    (directions_request_body o d w (some p)).routeModifiers.avoidTolls = p.avoidTolls ∧
    (directions_request_body o d w (some p)).routeModifiers.avoidFerries = p.avoidFerries := by
  simp [directions_request_body, build_route_modifiers, hs]

/-- Witness for C4 at the concrete preferences `scenic = true`,
`avoidHighways = false`. -/
theorem c4_witness :
    ({ scenic := true, avoidHighways := false : RoutePreferences }).scenic = true ∧
    ((directions_request_body "o" "d" []
        (some { scenic := true, avoidHighways := false })).routeModifiers.avoidHighways = true ∧
      (directions_request_body "o" "d" []
        (some { scenic := true, avoidHighways := false })).routeModifiers.avoidTolls =
        ({ scenic := true, avoidHighways := false : RoutePreferences }).avoidTolls ∧
      (directions_request_body "o" "d" []
        (some { scenic := true, avoidHighways := false })).routeModifiers.avoidFerries =
        ({ scenic := true, avoidHighways := false : RoutePreferences }).avoidFerries) :=
  ⟨rfl, c4_preference_mapping "o" "d" [] { scenic := true, avoidHighways := false } rfl⟩

/-! ## C5: radius clamp -/

/-- C5: for any angular distance between the two geocoded corridor
endpoints, the biased-search radius computed by
`search_places_along_route` (the distance converted at 111,000 m per
degree, halved, then clamped) lies in [5000, 50000] meters. -/
theorem c5_radius_clamp (dist_deg : ℚ) :
    5000 ≤ search_radius_m dist_deg ∧ search_radius_m dist_deg ≤ 50000 := by
  have h5 : (5000 : ℚ) ≤ max 5000 (min 50000 (dist_deg * 111000 / 2)) := le_max_left _ _
  have h50 : max 5000 (min 50000 (dist_deg * 111000 / 2)) ≤ 50000 :=
    max_le (by norm_num) (min_le_left _ _)
  have hnn : ¬ max 5000 (min 50000 (dist_deg * 111000 / 2)) < 0 :=
    not_lt.2 (le_trans (by norm_num) h5)
  unfold search_radius_m pytrunc
  rw [if_neg hnn]
  constructor
  · exact Int.le_floor.mpr (by exact_mod_cast h5)
  · have hfl : (⌊max 5000 (min 50000 (dist_deg * 111000 / 2))⌋ : ℚ) ≤ 50000 :=
      le_trans (Int.floor_le _) h50
    exact_mod_cast hfl

/-! ## C10: query-less search stops pass through resolution unchanged -/

/-- C10: a `search`-type stop whose `searchQuery` is absent or empty is
passed through the per-stop resolution step entirely unchanged (so it is
never sent to the Place Finder — the result does not depend on any
provider — and gains no diagnostic note), for every provider environment. -/
theorem c10_queryless_search_passthrough (env : Env) (origin final_dest : String)
    (all : List RouteStop) (i : Nat) (s : RouteStop)
    (_hT : s.stopType = some "search")
    (hQ : s.searchQuery = none ∨ s.searchQuery = some "") :
    resolve_stop env origin final_dest all i s = s := by
  have hact : search_active s = false := by
    rcases hQ with h | h <;> simp [search_active, pyTruthyStr, h]
  simp [resolve_stop, hact]

/-- Witness for C10 at a concrete query-less search stop. -/
theorem c10_witness :
    resolve_stop noProviderEnv "o" "d" [] 0 searchStopNoQuery = searchStopNoQuery :=
  c10_queryless_search_passthrough noProviderEnv "o" "d" [] 0 searchStopNoQuery rfl (Or.inl rfl)

/-! ## C2: the conflict scheduler -/

/-- C2: the conflict-scheduling phase advances a simulated clock with
`arrival = clock + driveMinutesFromPrev (or 0)`,
`visitStart = max(arrival, openTime or 00:00)`,
`hasConflict = visitStart + dwellMinutes > (closeTime or 23:59)`,
`estimatedArrival = format12Hour(visitStart)`, and
`clock := visitStart + dwellMinutes`; and through the full pipeline
(clock initialized to 08:00 = 480), a single stop with a 30-minute drive,
window 09:00–09:15 and 20-minute dwell gets `hasConflict = true` and
`estimatedArrival = "9:00 AM"`. -/
theorem c2_conflict_scheduler :
    (∀ (clock : Int) (s : RouteStop) (rest : List RouteStop),
      schedule clock (s :: rest) =
        (let arrival := clock + s.driveMinutesFromPrev.getD 0
         let open_min : Int :=
           if pyTruthyStr s.openTime then time_to_minutes (s.openTime.getD "") else 0
         let close_min : Int :=
           if pyTruthyStr s.closeTime then time_to_minutes (s.closeTime.getD "") else 23 * 60 + 59
         let visit_start := max arrival open_min
         { s with
           estimatedArrival := some (minutes_to_time visit_start)
           hasConflict := decide (visit_start + s.dwellMinutes > close_min) } ::
           schedule (visit_start + s.dwellMinutes) rest)) ∧
    (resolve_and_optimize thirtyMinLegEnv windowBody).map
        (fun r => r.stops.map (fun s => (s.hasConflict, s.estimatedArrival, s.driveMinutesFromPrev))) =
      some [(true, some "9:00 AM", some 30)] := by
  constructor
  · intro clock s rest
    simp only [schedule, pyOrInt_zero]
  · decide

/-! ## C6: directions legs and totals (amended) -/

lemma process_legs_spec (raw : List LegRaw) :
    process_legs raw =
      (raw.map (fun l => ⟨Int.ediv l.durationSec 60, round1 ((l.distanceMeters : ℚ) / 1000)⟩),
       (raw.map (fun l => Int.ediv l.durationSec 60)).sum,
       (raw.map (fun l => l.distanceMeters)).sum) := by
  induction raw with
  | nil => rfl
  | cons a t ih => simp only [process_legs, ih, List.map_cons, List.sum_cons]

/-- C6 (amended): each leg's duration is the provider's seconds
floor-divided by 60 and each leg's distance is meters / 1000 rounded to
0.1; the aggregate duration is the sum of the legs' minutes, while the
aggregate distance is computed from the sum of the legs' raw meters
(divided by 1000 and rounded to 0.1) — from the legs, not from any
provider route total, but not equal in general to the sum of the rounded
per-leg kilometres. -/
theorem c6_legs_totals (raw : List LegRaw) :
    (mk_directions_result raw).legs =
      raw.map (fun l => ⟨Int.ediv l.durationSec 60, round1 ((l.distanceMeters : ℚ) / 1000)⟩) ∧
    (mk_directions_result raw).total_duration_min =
      ((mk_directions_result raw).legs.map (fun l => l.duration_min)).sum ∧
    (mk_directions_result raw).total_distance_km =
      round1 ((((raw.map (fun l => l.distanceMeters)).sum : ℤ) : ℚ) / 1000) := by
  simp only [mk_directions_result, process_legs_spec]
  refine ⟨trivial, ?_, trivial⟩
  rw [List.map_map]
  rfl

/-- Counterexample to C6 as stated: for two 1250-meter legs the aggregate
distance is `round1 2.5 = 2.5` km while the sum of the (rounded) legs is
`1.2 + 1.2 = 2.4` km. -/
theorem c6_counterexample :
    (get_directions twoLegEnv "o" "d" [] none).map
        (fun r => (r.total_distance_km, (r.legs.map (fun l => l.distance_km)).sum)) =
      some (5/2, 12/5) ∧ (5/2 : ℚ) ≠ 12/5 := by
  constructor
  · simp only [get_directions, twoLegEnv, mk_directions_result, process_legs]
    norm_num [round1, round_half_even]
    refine ⟨_, ⟨by simp, rfl⟩, rfl, ?_⟩
    norm_num
  · norm_num

/-! ## C7: geocode backfill frame property (amended) -/

/-- C7 (amended): in the geocode-backfill phase, a stop whose latitude and
longitude are both set and nonzero is returned untouched; every other
stop (missing or zero coordinate) is geocoded, and geocoding changes only
`latitude` and `longitude`. -/
theorem c7_geocode_backfill_frame (env : Env) (s : RouteStop) :
    (pyCoordTruthy s = true → geocode_stop env s = s) ∧
    (pyCoordTruthy s = false →
      geocode_stop env s =
        match geocode env s.address with
        | some g => { s with latitude := some g.lat, longitude := some g.lng }
        | none => s) := by
  constructor
  · intro h
    simp [geocode_stop, h]
  · intro h
    simp [geocode_stop, h]

/-- A stop already carrying nonzero coordinates. -/
def coordStop : RouteStop :=
  { id := "c", address := "A", latitude := some 1, longitude := some 1 }

/-- Witness for C7 at a concrete coordinate-bearing stop. -/
theorem c7_witness : pyCoordTruthy coordStop = true ∧ geocode_stop yEnv coordStop = coordStop :=
  ⟨by decide, (c7_geocode_backfill_frame yEnv coordStop).1 (by decide)⟩

/-- Counterexample to C7 as stated: a stop with `latitude = 0` and
`longitude = 1` (both coordinates set) is not returned untouched — the
backfill re-geocodes it and overwrites both coordinates. -/
theorem c7_counterexample :
    geocode_stop yEnv zeroLatStop ≠ zeroLatStop ∧
    (geocode_stop yEnv zeroLatStop).latitude = some 5 := by
  constructor <;> decide

/-! ## C8: straight-line reorder scenario -/

/-- C8: for the 3-stop reorder request whose stops geocode to A(0,0),
B(1,0), C(2,0) with origin at (0,0), `optimize_stop_order` returns the
stops in order [A, B, C]. (All three coordinate pairs contain a zero
component, so Python truthiness routes them through the append-remaining
fallback — which also yields the original order.) -/
theorem c8_reorder_line :
    (optimize_stop_order lineEnv lineBody).map (fun s => s.id) = ["A", "B", "C"] := by
  decide

/-! ## C1: behaviour with no configured providers (amended) -/

lemma search_places_none_of_no_key (env : Env) (h1 : env.gkey = "")
    (q oa da : String) (pa pb : Option String) :
    search_places_along_route env q oa da pa pb = none := by
  simp [search_places_along_route, h1]

lemma geocode_none_of_no_provider (env : Env) (h1 : env.gkey = "")
    (h2 : ∀ a, env.nominatim a = none) (a : String) : geocode env a = none := by
  simp [geocode, h1, h2]

lemma get_directions_none_of_no_key (env : Env) (h1 : env.gkey = "")
    (o da : String) (wp : List String) (prefs : Option RoutePreferences) :
    get_directions env o da wp prefs = none := by
  simp [get_directions, h1]

lemma phase1_go_no_provider (env : Env) (h1 : env.gkey = "") :
    ∀ (o d : String) (all l : List RouteStop) (i : Nat),
      phase1_go env o d all i l =
        l.map (fun s =>
          if search_active s then { s with notes := some (search_fail_note s) } else s) := by
  intro o d all l
  induction l with
  | nil => intro i; rfl
  | cons a t ih =>
      intro i
      simp only [phase1_go, List.map_cons, ih]
      rw [resolve_stop_stopType_of_fail env o d all i a
        (fun q pa pb => search_places_none_of_no_key env h1 q o d pa pb)]

lemma resolve_no_provider_eq (env : Env) (body : RouteRequest) (h1 : env.gkey = "")
    (h2 : ∀ a, env.nominatim a = none) (h3 : body.stops ≠ []) :
    resolve_and_optimize env body =
      some
        { stops :=
            body.stops.map (fun s =>
              if search_active s then { s with notes := some (search_fail_note s) } else s)
          directions := none } := by
  have hgs : ∀ l : List RouteStop, l.map (geocode_stop env) = l := fun l =>
    map_eq_self_of_eq _ _ fun s _ =>
      geocode_stop_of_geocode_none env s (geocode_none_of_no_provider env h1 h2 s.address)
  unfold resolve_and_optimize
  rw [if_neg h3]
  simp only [phase1, phase1_go_no_provider env h1, hgs,
    get_directions_none_of_no_key env h1, phase3, Option.isSome_none, Bool.and_false,
    if_neg (Bool.false_ne_true)]

lemma search_fail_note_ne_empty (s : RouteStop) : search_fail_note s ≠ "" := by
  intro h
  have hl := congrArg String.length h
  have h16 : ("Could not find \x27" : String).length = 16 := rfl
  simp [search_fail_note, String.length_append, h16] at hl

/-- C1 (amended): for every request with a non-empty stop list, when no
provider is configured (no Google key and the keyless geocoding fallback
yields nothing), `resolveRoute` returns `directions = null` and returns
every stop unchanged, except that each `search`-type stop *with a
non-empty `searchQuery`* gains a (non-empty) diagnostic note; the note
text is always non-empty. -/
theorem c1_no_provider_passthrough (env : Env) (body : RouteRequest) (h1 : env.gkey = "")
    (h2 : ∀ a, env.nominatim a = none) (h3 : body.stops ≠ []) :
    resolve_and_optimize env body =
      some
        { stops :=
            body.stops.map (fun s =>
              if search_active s then { s with notes := some (search_fail_note s) } else s)
          directions := none } ∧
    ∀ s : RouteStop, search_fail_note s ≠ "" := by
  exact ⟨resolve_no_provider_eq env body h1 h2 h3, search_fail_note_ne_empty⟩

/-- A request with one active search stop and one specific stop. -/
def mixedBody : RouteRequest :=
  { stops :=
      [ { id := "q", address := "orig q", stopType := some "search", searchQuery := some "coffee" }
      , { id := "p", address := "P st" } ] }

/-- Witness for C1 (amended) at a concrete no-provider environment: the
active search stop gains the diagnostic note, the specific stop is
untouched, and directions is null. -/
theorem c1_witness :
    resolve_and_optimize noProviderEnv mixedBody =
      some
        { stops :=
            mixedBody.stops.map (fun s =>
              if search_active s then { s with notes := some (search_fail_note s) } else s)
          directions := none } := by
  have h := c1_no_provider_passthrough noProviderEnv mixedBody rfl (fun a => rfl)
    (by decide)
  exact h.1

/-- Counterexample to C1 as stated: with no providers, a `search`-type
stop whose `searchQuery` is absent gains no diagnostic note at all (its
`notes` stays `none`), so "each search-type stop gains a non-empty
diagnostic note" fails. -/
theorem c1_counterexample :
    (resolve_and_optimize noProviderEnv bodyNoQuery).map
        (fun r => r.stops.map (fun s => (s.stopType, s.notes))) =
      some [(some "search", none)] := by
  decide

/-! ## C3: order preservation in resolveRoute -/

lemma pipeline_stops_id (env : Env) (body : RouteRequest) (h3 : body.stops ≠ []) :
    (resolve_and_optimize env body).map (fun r => r.stops.map (fun s => s.id)) =
      some (body.stops.map (fun s => s.id)) := by
  have hgs : ∀ l : List RouteStop,
      (l.map (geocode_stop env)).map (fun s => s.id) = l.map (fun s => s.id) := fun l =>
    map_proj_map _ _ l (geocode_stop_id env)
  unfold resolve_and_optimize
  rw [if_neg h3]
  simp only [Option.map_some', Option.some.injEq]
  split
  all_goals split
  all_goals
    first
      | (rw [schedule_id, phase3_id, hgs]; simp only [phase1, phase1_go_id])
      | (rw [phase3_id, hgs]; simp only [phase1, phase1_go_id])

/-- C3: for every environment and every request with a non-empty stop
list, `resolveRoute` returns a stop array of the same length whose stop
at each index carries the id of the input stop at the same index (order
preserved; only field values change). -/
theorem c3_order_preservation (env : Env) (body : RouteRequest) (h3 : body.stops ≠ []) :
    (resolve_and_optimize env body).map (fun r => r.stops.map (fun s => s.id)) =
      some (body.stops.map (fun s => s.id)) ∧
    (resolve_and_optimize env body).map (fun r => r.stops.length) =
      some body.stops.length := by
  have hids := pipeline_stops_id env body h3
  refine ⟨hids, ?_⟩
  cases hres : resolve_and_optimize env body with
  | none => rw [hres] at hids; simp at hids
  | some r =>
      rw [hres] at hids
      simp only [Option.map_some', Option.some.injEq] at hids ⊢
      have := congrArg List.length hids
      simpa using this

/-- Witness for C3 at a concrete request (one search stop and one
specific stop) and the no-provider environment. -/
theorem c3_witness :
    mixedBody.stops ≠ [] ∧
    ((resolve_and_optimize noProviderEnv mixedBody).map
        (fun r => r.stops.map (fun s => s.id)) =
      some (mixedBody.stops.map (fun s => s.id)) ∧
    (resolve_and_optimize noProviderEnv mixedBody).map (fun r => r.stops.length) =
      some mixedBody.stops.length) :=
  ⟨by decide, c3_order_preservation noProviderEnv mixedBody (by decide)⟩

/-! ## C9: zero-coordinate stops in reorderStops -/

lemma select_go_mem (env : Env) (stops : List RouteStop) (cur : Geo) :
    ∀ (l : List Nat) (acc : Option (Nat × ℚ)) (i : Nat) (d : ℚ),
      select_go env stops cur l acc = some (i, d) →
      (∃ d0, acc = some (i, d0)) ∨
        (i ∈ l ∧ pyCoordTruthy (stops.getD i default) = true) := by
  intro l
  induction l with
  | nil =>
      intro acc i d h
      exact Or.inl ⟨d, h⟩
  | cons idx rest ih =>
      intro acc i d h
      simp only [select_go] at h
      by_cases htr : pyCoordTruthy (stops.getD idx default) = true
      · rw [if_pos htr] at h
        cases acc with
        | none =>
            rcases ih _ _ _ h with ⟨d0, hd0⟩ | ⟨hmem, htru⟩
            · have : idx = i := by
                simpa using congrArg (fun o => (o.map Prod.fst).getD 0) hd0
              subst this
              exact Or.inr ⟨List.mem_cons_self idx rest, htr⟩
            · exact Or.inr ⟨List.mem_cons_of_mem idx hmem, htru⟩
        | some p =>
            rcases p with ⟨bi, bd⟩
            rcases ih _ _ _ h with ⟨d0, hd0⟩ | ⟨hmem, htru⟩
            · by_cases hlt : env.dist cur
                  ⟨(stops.getD idx default).latitude.getD 0,
                    (stops.getD idx default).longitude.getD 0⟩ < bd
              · rw [if_pos hlt] at hd0
                have : idx = i := by
                  simpa using congrArg (fun o => (o.map Prod.fst).getD 0) hd0
                subst this
                exact Or.inr ⟨List.mem_cons_self idx rest, htr⟩
              · rw [if_neg hlt] at hd0
                have : bi = i := by
                  simpa using congrArg (fun o => (o.map Prod.fst).getD 0) hd0
                subst this
                exact Or.inl ⟨bd, rfl⟩
            · exact Or.inr ⟨List.mem_cons_of_mem idx hmem, htru⟩
      · rw [if_neg htr] at h
        rcases ih _ _ _ h with h1 | ⟨hmem, htru⟩
        · exact Or.inl h1
        · exact Or.inr ⟨List.mem_cons_of_mem idx hmem, htru⟩

lemma select_go_none (env : Env) (stops : List RouteStop) (cur : Geo) :
    ∀ (l : List Nat) (acc : Option (Nat × ℚ)),
      select_go env stops cur l acc = none →
      acc = none ∧ ∀ i ∈ l, pyCoordTruthy (stops.getD i default) = false := by
  intro l
  induction l with
  | nil =>
      intro acc h
      exact ⟨h, by simp⟩
  | cons idx rest ih =>
      intro acc h
      simp only [select_go] at h
      by_cases htr : pyCoordTruthy (stops.getD idx default) = true
      · rw [if_pos htr] at h
        exfalso
        cases acc with
        | none => exact Option.some_ne_none _ (ih _ h).1
        | some p =>
            have hx := (ih _ h).1
            split at hx <;> exact Option.some_ne_none _ hx
      · rw [if_neg htr] at h
        rcases ih _ h with ⟨hacc, hall⟩
        refine ⟨hacc, ?_⟩
        intro i hi
        rcases List.mem_cons.mp hi with rfl | hi'
        · simp only [Bool.not_eq_true] at htr
          exact htr
        · exact hall i hi'

lemma filter_erase_of_false (p : Nat → Bool) (a : Nat) :
    ∀ l : List Nat, p a = false → (l.erase a).filter p = l.filter p := by
  intro l hpa
  induction l with
  | nil => rfl
  | cons b t ih =>
      by_cases hb : b = a
      · subst hb
        simp [List.erase_cons, List.filter_cons, hpa]
      · have hba : (b == a) = false := by simp [hb]
        simp [List.erase_cons, hba, List.filter_cons, ih]

lemma greedy_decomp (env : Env) (stops : List RouteStop) :
    ∀ (fuel : Nat) (remaining : List Nat) (cur : Geo),
      remaining.length ≤ fuel →
      ∃ L,
        greedy env stops fuel cur remaining =
          L ++ remaining.filter (fun i => !(pyCoordTruthy (stops.getD i default))) ∧
        ∀ i ∈ L, pyCoordTruthy (stops.getD i default) = true := by
  intro fuel
  induction fuel with
  | zero =>
      intro remaining cur hlen
      have : remaining = [] := List.length_eq_zero.mp (Nat.le_zero.mp hlen)
      subst this
      exact ⟨[], rfl, by simp⟩
  | succ fuel ih =>
      intro remaining cur hlen
      by_cases hvide : remaining = []
      · subst hvide
        exact ⟨[], by simp [greedy], by simp⟩
      · cases hsel : select_best env stops cur remaining with
        | none =>
            refine ⟨[], ?_, by simp⟩
            have hgo : select_go env stops cur remaining none = none := by
              unfold select_best at hsel
              cases hg : select_go env stops cur remaining none with
              | none => rfl
              | some p => rw [hg] at hsel; simp at hsel
            have hall := (select_go_none env stops cur remaining none hgo).2
            have hfil :
                remaining.filter (fun i => !(pyCoordTruthy (stops.getD i default))) =
                  remaining := by
              apply List.filter_eq_self.mpr
              intro a ha
              simp only [hall a ha, Bool.not_false]
            rw [hfil]
            simp only [greedy, if_neg hvide, hsel, List.nil_append]
        | some bi =>
            have hgo : ∃ d, select_go env stops cur remaining none = some (bi, d) := by
              unfold select_best at hsel
              cases hg : select_go env stops cur remaining none with
              | none => rw [hg] at hsel; simp at hsel
              | some p =>
                  rw [hg] at hsel
                  simp only [Option.map_some', Option.some.injEq] at hsel
                  exact ⟨p.2, by rw [← hsel]⟩
            rcases hgo with ⟨d, hgo⟩
            rcases select_go_mem env stops cur remaining none bi d hgo with ⟨d0, hd0⟩ | ⟨hmem, htru⟩
            · simp at hd0
            · have hlen' : (remaining.erase bi).length ≤ fuel := by
                rw [List.length_erase_of_mem hmem]
                omega
              rcases ih (remaining.erase bi)
                  ⟨(stops.getD bi default).latitude.getD 0,
                    (stops.getD bi default).longitude.getD 0⟩ hlen' with ⟨L', hL', htr'⟩
              refine ⟨bi :: L', ?_, ?_⟩
              · simp only [greedy, if_neg hvide, hsel]
                rw [hL']
                rw [filter_erase_of_false _ bi remaining (by simp only [htru, Bool.not_true])]
                rfl
              · intro i hi
                rcases List.mem_cons.mp hi with rfl | hi'
                · exact htru
                · exact htr' i hi'

/-- Reorder environment: origin "O" geocodes to (0,0), everything else
fails to geocode; the abstract distance of a point is its latitude. -/
def zEnv : Env :=
  { gkey := ""
    googleGeocode := fun _ => none
    nominatim := fun a => if a = "O" then some ⟨0, 0⟩ else none
    placesBiased := fun _ _ _ => none
    placesUnbiased := fun _ => none
    routes := fun _ => none
    sqrtQ := fun _ => 0
    dist := fun _ g => g.lat }

/-- A stop that carries `latitude = 0` (set, but falsy) and a nonzero
longitude, and whose address does not geocode. -/
def stopZ : RouteStop :=
  { id := "Z", address := "Z", latitude := some 0, longitude := some 5 }

/-- Reorder request: the zero-latitude stop first, then two stops with
nonzero coordinates. -/
def zBody : OptimizeRequest :=
  { origin := some "O"
    stops :=
      [ stopZ
      , { id := "P", address := "P", latitude := some 1, longitude := some 1 }
      , { id := "Q", address := "Q", latitude := some 2, longitude := some 2 } ] }

/-- C9: in `reorderStops`, a stop one of whose set coordinates equals
exactly 0 is treated as lacking coordinates: (a) `ensure_coords`
re-geocodes it even though both fields are set; (b) the greedy loop never
selects any coordinate-falsy stop by distance — the produced order is
some truthy-coordinate indices followed by exactly the falsy indices in
their original relative order; (c) concretely, the zero-latitude stop Z
is re-geocoded (unsuccessfully) and appended after the coordinate-bearing
stops P, Q. -/
theorem c9_zero_coord_stops :
    (∀ (env : Env) (s : RouteStop) (a b : ℚ),
        s.latitude = some a → s.longitude = some b → a = 0 ∨ b = 0 →
        ensure_coords env s =
          match geocode env s.address with
          | some g => { s with latitude := some g.lat, longitude := some g.lng }
          | none => s) ∧
    (∀ (env : Env) (stops : List RouteStop) (fuel : Nat) (cur : Geo) (remaining : List Nat),
        remaining.length ≤ fuel →
        ∃ L,
          greedy env stops fuel cur remaining =
            L ++ remaining.filter (fun i => !(pyCoordTruthy (stops.getD i default))) ∧
          ∀ i ∈ L, pyCoordTruthy (stops.getD i default) = true) ∧
    (optimize_stop_order zEnv zBody).map (fun s => s.id) = ["P", "Q", "Z"] := by
  refine ⟨?_, ?_, ?_⟩
  · intro env s a b hla hlo hz
    have hfalsy : pyCoordTruthy s = false := by
      rcases hz with rfl | rfl <;>
        simp [pyCoordTruthy, pyTruthyNum, hla, hlo]
    simp [ensure_coords, hfalsy]
  · intro env stops fuel cur remaining hlen
    exact greedy_decomp env stops fuel remaining cur hlen
  · decide

/-- Witness for C9: the zero-latitude stop is sent to the geocoder (whose
failure leaves it unchanged), by the first part of the theorem. -/
theorem c9_witness : ensure_coords zEnv stopZ = stopZ := by
  have h := c9_zero_coord_stops.1 zEnv stopZ 0 5 rfl rfl (Or.inl rfl)
  rw [h]
  rfl
